import Mathlib

set_option maxRecDepth 4000

/-!
Verification of SnortMCPLatest (backend/mcp_server.py, backend/llm_service.py).

Python strings are embedded as Lean `String`/`List Char`; the Python string
primitives used by the code (`str.strip`, `str.split` with a separator,
`str.startswith`, `in` substring test, `str.replace`, slicing with
`find`/`rfind`) are reimplemented below with Python's semantics.  Subprocess
invocations are modelled by an explicit `Env` oracle; each tool function
returns its textual result together with the list of external calls it made,
each call recording the argv vector, the stdin payload and the timeout that
the code passes to `subprocess.run`.
-/

/-- Python `str.isspace` on the ASCII whitespace characters (space, tab,
newline, carriage return, vertical tab, form feed), the set stripped by
`str.strip()` on the inputs this program handles. -/
def isPySpace (c : Char) : Bool :=
  c == ' ' || c == '\t' || c == '\n' || c == '\r' || c == Char.ofNat 11 || c == Char.ofNat 12

/-- Left part of Python `str.strip()`: drop leading whitespace. -/
def stripLeftL (l : List Char) : List Char := l.dropWhile isPySpace

/-- Right part of Python `str.strip()`: drop trailing whitespace. -/
def stripRightL (l : List Char) : List Char := (l.reverse.dropWhile isPySpace).reverse

/-- Python `str.strip()` on character lists. -/
def pyStripL (l : List Char) : List Char := stripRightL (stripLeftL l)

/-- Python `str.strip()`. -/
def pyStrip (s : String) : String := (pyStripL s.toList).asString

/-- Whether `pat` is a prefix of `l` (Python `str.startswith`). -/
def isPrefixL : List Char → List Char → Bool
  | [], _ => true
  | _ :: _, [] => false
  | p :: ps, x :: xs => p == x && isPrefixL ps xs

/-- Python `s.startswith(pat)`. -/
def startsWithStr (pat s : String) : Bool := isPrefixL pat.toList s.toList

/-- Whether character `c` occurs in `l` (Python `c in s`). -/
def containsCharL (c : Char) (l : List Char) : Bool := l.any (fun x => x == c)

/-- Whether `pat` occurs as a contiguous substring of the second list. -/
def containsSubL (pat : List Char) : List Char → Bool
  | [] => isPrefixL pat []
  | x :: xs => isPrefixL pat (x :: xs) || containsSubL pat xs

/-- Python `pat in s` (substring containment). -/
def containsSub (s pat : String) : Bool := containsSubL pat.toList s.toList

/-- Split at the first occurrence of `c`: returns the part before and the
part after, or `none` when `c` does not occur. -/
def splitChar1 (c : Char) : List Char → Option (List Char × List Char)
  | [] => none
  | x :: xs =>
    if x == c then some ([], xs)
    else
      match splitChar1 c xs with
      | none => none
      | some (pre, post) => some (x :: pre, post)

/-- Python `s.split(c, maxsplit)` for a single-character separator: at most
`maxsplit` splits, empty fields kept, the remainder left unsplit. -/
def pySplitN (c : Char) : Nat → List Char → List (List Char)
  | 0, l => [l]
  | n + 1, l =>
    match splitChar1 c l with
    | none => [l]
    | some (pre, post) => pre :: pySplitN c n post

/-- Python `s.split(c)` (no maxsplit): split at every occurrence of `c`,
empty fields kept. -/
def pySplitAll (c : Char) (l : List Char) : List (List Char) :=
  l.foldr
    (fun x acc =>
      if x == c then [] :: acc
      else
        match acc with
        | [] => [[x]]
        | a :: rest => (x :: a) :: rest)
    [[]]

/-- Python `s.find(c)` when `c` is known to occur: index of first occurrence. -/
def findIdxL (c : Char) (l : List Char) : Nat := l.findIdx (fun x => x == c)

/-- Python `s.rfind(c)` when `c` is known to occur: index of last occurrence. -/
def rfindIdxL (c : Char) (l : List Char) : Nat :=
  l.length - 1 - l.reverse.findIdx (fun x => x == c)

/-- Python `s[-n:]`: the last `n` characters. -/
def takeRightL (n : Nat) (l : List Char) : List Char := l.drop (l.length - n)

/-- Fuel-driven core of Python `str.replace`: scan left to right, replacing
each non-overlapping occurrence of `pat` by `rep`.  `fuel` bounds the number
of steps; `replaceL` supplies `l.length`, which is enough because every step
consumes at least one character of `l`. -/
def replaceFuel (pat rep : List Char) : Nat → List Char → List Char
  | 0, l => l
  | _ + 1, [] => []
  | fuel + 1, x :: xs =>
    if pat ≠ [] ∧ isPrefixL pat (x :: xs) = true then
      rep ++ replaceFuel pat rep fuel ((x :: xs).drop pat.length)
    else x :: replaceFuel pat rep fuel xs

/-- Python `l.replace(pat, rep)` on character lists. -/
def replaceL (pat rep l : List Char) : List Char := replaceFuel pat rep l.length l

/-- Python `s.replace(pat, rep)`. -/
def replaceStr (s pat rep : String) : String := (replaceL pat.toList rep.toList s.toList).asString

/-- Join a list of fields with a single separator character (inverse of
`pySplitN` on its own output). -/
def joinChar (c : Char) : List (List Char) → List Char
  | [] => []
  | [a] => a
  | a :: b :: t => a ++ c :: joinChar c (b :: t)

/-! ## The rule mini-parser (`parse_snort_rule`, mcp_server.py lines 125-161) -/

/-- The dictionary built by `parse_snort_rule`: one entry per parsed option.
Field names follow the keys of the Python dict literal. -/
structure RuleRecord where
  Action : String
  Proto : String
  Src : String
  Dir : String
  Dst : String
  Msg : String
  SID : String
  Raw : String
deriving DecidableEq

/-- Result of `parse_snort_rule`: Python `None`, a full record, or the
degenerate `except`-branch value `\x7b"Raw": ..., "Error": "Parsing failed"\x7d`. -/
inductive ParseResult where
  | none
  | record (r : RuleRecord)
  | failed (raw : String)
deriving DecidableEq

/-- Python dict assignment `d[k] = v`: any previous binding of `k` is
overwritten. -/
def dictSet (d : List (String × String)) (k v : String) : List (String × String) :=
  d.filter (fun p => p.1 != k) ++ [(k, v)]

/-- Python `d.get(k, dflt)`. -/
def dictGet (d : List (String × String)) (k dflt : String) : String :=
  match d.find? (fun p => p.1 == k) with
  | some p => p.2
  | none => dflt

/-- One iteration of the option loop in `parse_snort_rule`: if the option
text contains a colon, split at the first colon, strip the key, strip the
value and delete every double-quote character from it (Python
`val.strip().replace(chr(34), '')`), and store the pair; otherwise ignore
the option. -/
def addOption (acc : List (String × String)) (op : List Char) : List (String × String) :=
  if containsCharL ':' op then
    dictSet acc
      (pyStripL (op.takeWhile (fun c => c != ':'))).asString
      ((pyStripL ((op.dropWhile (fun c => c != ':')).drop 1)).filter (fun c => c != '"')).asString
  else acc

/-- The options dictionary of `parse_snort_rule`: when the options blob
contains both parentheses, take the text between the first `(` and the last
`)`, split it on `;`, strip each piece, drop empty pieces, and fold the
option loop over the rest. -/
def parseOptions (options_str : List Char) : List (String × String) :=
  if containsCharL '(' options_str && containsCharL ')' options_str then
    let inner :=
      (options_str.take (rfindIdxL ')' options_str)).drop (findIdxL '(' options_str + 1)
    let opt_parts := ((pySplitAll ';' inner).map pyStripL).filter (fun p => p ≠ [])
    opt_parts.foldl addOption []
  else []

/-- Body of `parse_snort_rule` after the initial `strip`: skip empty and
`#`-comment lines, split on single spaces with maxsplit 7, drop lines with
fewer than 7 fields, and build the record.  The Python `try` around this
body can never fire because every primitive used after the field-count
check (`split`, slicing, `find`, `rfind`, `strip`, `replace`, dict update)
is total on strings, so the `.failed` value is never produced. -/
def parseCore (rt : List Char) : ParseResult :=
  if rt = [] then ParseResult.none
  else if isPrefixL ['#'] rt = true then ParseResult.none
  else
    let parts := pySplitN ' ' 7 rt
    if parts.length < 7 then ParseResult.none
    else
      let options_str := if 7 < parts.length then parts.getD 7 [] else []
      let options := parseOptions options_str
      ParseResult.record
        { Action := (parts.getD 0 []).asString
          Proto := (parts.getD 1 []).asString
          Src := (parts.getD 2 []).asString ++ ":" ++ (parts.getD 3 []).asString
          Dir := (parts.getD 4 []).asString
          Dst := (parts.getD 5 []).asString ++ ":" ++ (parts.getD 6 []).asString
          Msg := dictGet options "msg" "N/A"
          SID := dictGet options "sid" "N/A"
          Raw := rt.asString }

/-- `parse_snort_rule` (mcp_server.py lines 125-161). -/
def parse_snort_rule (rule_text : String) : ParseResult :=
  parseCore (pyStripL rule_text.toList)

/-! ## Subprocess model

Each `subprocess.run(cmd, ...)` in mcp_server.py passes an argv vector, an
optional stdin payload and an optional timeout (in seconds) and either
returns a completed process (stdout, stderr, returncode), raises
`subprocess.TimeoutExpired`, or raises some other exception.  An `Env`
supplies the outcome for each call, plus the results of `shutil.which`
("snort") and `os.path.exists`. -/

/-- A completed `subprocess.run`: captured stdout, stderr, and exit code. -/
structure ProcResult where
  stdout : String
  stderr : String
  returncode : Int
deriving DecidableEq

/-- Outcome of one `subprocess.run` call: normal completion, a raised
`subprocess.TimeoutExpired` (with its message), or another raised
exception (with its message). -/
inductive ProcOutcome where
  | ok (res : ProcResult)
  | timeout (msg : String)
  | exc (msg : String)
deriving DecidableEq

/-- One external call as issued by the code: argv as passed to
`subprocess.run`, the `input` payload if any, and the `timeout` argument if
any. -/
structure Call where
  argv : List String
  stdin : Option String
  timeout : Option Nat
deriving DecidableEq

/-- The world the server runs against: whether `shutil.which("snort")`
finds the binary, which paths `os.path.exists` reports, and the outcome of
each subprocess call. -/
structure Env where
  snortInstalled : Bool
  pathExists : String → Bool
  run : Call → ProcOutcome

/-! ## Tool embeddings (mcp_server.py)

Each tool returns its result string together with the list of subprocess
calls it performed, in order. -/

/-- The call made by `get_snort_version`: note that no `timeout` argument is
passed to `subprocess.run` (mcp_server.py line 23). -/
def versionCall : Call :=
  { argv := ["sudo", "snort", "-V"], stdin := none, timeout := none }

/-- `get_snort_version` (mcp_server.py lines 15-29). -/
def get_snort_version (env : Env) : String × List Call :=
  if !env.snortInstalled then ("Error: Snort not found", [])
  else
    match env.run versionCall with
    | ProcOutcome.ok res =>
      let combined := pyStrip (res.stdout ++ "\n" ++ res.stderr)
      (if combined = "" then "Error: Snort ran but produced NO output." else combined,
       [versionCall])
    | ProcOutcome.timeout m => ("Error executing snort: " ++ m, [versionCall])
    | ProcOutcome.exc m => ("Error executing snort: " ++ m, [versionCall])

/-- The call made by `verify_config`: 10-second timeout. -/
def verifyCall (config_path : String) : Call :=
  { argv := ["sudo", "snort", "-T", "-c", config_path], stdin := none, timeout := some 10 }

/-- `verify_config` (mcp_server.py lines 31-53).  `config_path` defaults to
"/etc/snort/snort.conf" at the call sites. -/
def verify_config (env : Env) (config_path : String) : String × List Call :=
  if !env.snortInstalled then ("Error: Snort not found", [])
  else
    match env.run (verifyCall config_path) with
    | ProcOutcome.ok res =>
      let output := res.stdout ++ "\n" ++ res.stderr
      (if containsSub output "Snort successfully validated the configuration" then
        "✅ Configuration is VALID."
      else
        "❌ Configuration Invalid:\n" ++ (takeRightL 1000 output.toList).asString,
       [verifyCall config_path])
    | ProcOutcome.timeout m => ("Error running verification: " ++ m, [verifyCall config_path])
    | ProcOutcome.exc m => ("Error running verification: " ++ m, [verifyCall config_path])

/-- The call made by `run_sniffer`: 15-second timeout, `count` rendered by
`str()`. -/
def sniffCall (interface : String) (count : Int) : Call :=
  { argv := ["sudo", "snort", "-i", interface, "-v", "-n", toString count],
    stdin := none, timeout := some 15 }

/-- `run_sniffer` (mcp_server.py lines 55-81).  The only clamping applied to
`packet_count` is `min(packet_count, 50)` (line 67). -/
def run_sniffer (env : Env) (interface : String) (packet_count : Int) : String × List Call :=
  if !env.snortInstalled then ("Error: Snort not found", [])
  else
    let count := min packet_count 50
    match env.run (sniffCall interface count) with
    | ProcOutcome.ok res =>
      let output := res.stdout ++ "\n" ++ res.stderr
      (if pyStrip output = "" then "No packets captured (or permission denied)." else output,
       [sniffCall interface count])
    | ProcOutcome.timeout _ => ("Error: Sniffer timed out.", [sniffCall interface count])
    | ProcOutcome.exc m => ("Error running sniffer: " ++ m, [sniffCall interface count])

/-- The `log_files` mapping of `read_snort_logs`. -/
def logFileFor (log_type : String) : Option String :=
  if log_type = "alert" then some "snort.alert"
  else if log_type = "alert.fast" then some "snort.alert.fast"
  else if log_type = "log" then some "snort.log"
  else none

/-- The call made by `read_snort_logs`: 5-second timeout. -/
def tailCall (count : Int) (path : String) : Call :=
  { argv := ["tail", "-n", toString count, path], stdin := none, timeout := some 5 }

/-- `read_snort_logs` (mcp_server.py lines 83-123).  The line count is
clamped by `min(max(1, lines), 100)` (line 109). -/
def read_snort_logs (env : Env) (log_type : String) (lines : Int) : String × List Call :=
  match logFileFor log_type with
  | none => ("Error: Invalid log_type. Available types: alert, alert.fast, log", [])
  | some fname =>
    let file_path := "/var/log/snort/" ++ fname
    if !env.pathExists file_path then ("Error: Log file " ++ file_path ++ " not found.", [])
    else
      let l := min (max 1 lines) 100
      match env.run (tailCall l file_path) with
      | ProcOutcome.ok res =>
        if res.returncode != 0 then ("Error reading log: " ++ res.stderr, [tailCall l file_path])
        else
          let output := pyStrip res.stdout
          (if output = "" then "No entries found in " ++ fname ++ "."
           else
             "--- Latest " ++ toString l ++ " lines from " ++ fname ++ " ---\n" ++ output,
           [tailCall l file_path])
      | ProcOutcome.timeout m => ("Error executing tail: " ++ m, [tailCall l file_path])
      | ProcOutcome.exc m => ("Error executing tail: " ++ m, [tailCall l file_path])

/-- The action keywords accepted by `add_snort_rule` (mcp_server.py line 194). -/
def snortActions : List String :=
  ["alert", "log", "pass", "activate", "dynamic", "drop", "reject", "sdrop"]

/-- Python `rule.strip().startswith(tuple_of_actions)`. -/
def validRuleStart (strippedRule : String) : Bool :=
  snortActions.any (fun a => isPrefixL a.toList strippedRule.toList)

/-- The append call made by `add_snort_rule`: `sudo tee -a` with the
stripped rule between newlines on stdin, 5-second timeout. -/
def teeCall (rule : String) : Call :=
  { argv := ["sudo", "tee", "-a", "/etc/snort/rules/local.rules"],
    stdin := some ("\n" ++ pyStrip rule ++ "\n"), timeout := some 5 }

/-- `add_snort_rule` (mcp_server.py lines 184-217). -/
def add_snort_rule (env : Env) (rule : String) : String × List Call :=
  if !validRuleStart (pyStrip rule) then
    ("Error: Rule must start with a valid Snort action (alert, log, etc.)", [])
  else
    match env.run (teeCall rule) with
    | ProcOutcome.ok res =>
      if res.returncode != 0 then ("Error adding rule (sudo): " ++ res.stderr, [teeCall rule])
      else
        let verification := verify_config env "/etc/snort/snort.conf"
        (if containsSub verification.1 "VALID" then
          "✅ Rule added and verified successfully:\n" ++ rule
        else
          "⚠️ Rule added but Snort configuration is now INVALID:\n" ++ verification.1 ++
            "\n\nPlease check and fix the rule manually.",
         teeCall rule :: verification.2)
    | ProcOutcome.timeout m => ("Error adding rule: " ++ m, [teeCall rule])
    | ProcOutcome.exc m => ("Error adding rule: " ++ m, [teeCall rule])

/-! ## Decision engine embedding (llm_service.py)

`get_agent_response` builds a prompt from the query and the tool catalog and
performs one model call; prompt construction and transport are external I/O,
abstracted into the `modelResult` input: `Except.error e` models the model
call (or client construction) raising with message `e`, `Except.ok raw`
models the model returning text `raw`.  `json.loads` is Python library code,
abstracted into the `parseJson` oracle: `none` models a raised
`json.JSONDecodeError`. -/

/-- A JSON value, as produced by `json.loads`. -/
inductive Json where
  | null : Json
  | bool (b : Bool) : Json
  | num (n : Int) : Json
  | str (s : String) : Json
  | arr (elems : List Json) : Json
  | obj (fields : List (String × Json)) : Json

/-- The dict literal `\x7b"type": "message", "content": c\x7d` built by the two
error handlers of `get_agent_response`. -/
def mkMessage (content : String) : Json :=
  Json.obj [("type", Json.str "message"), ("content", Json.str content)]

/-- The response cleanup of `get_agent_response` (llm_service.py lines
58-65): strip, then if the text starts with a code fence delete every
occurrence of the fence markers and strip again. -/
def cleanContent (raw : String) : String :=
  let content := pyStrip raw
  if startsWithStr "```json" content then
    pyStrip (replaceStr (replaceStr content "```json" "") "```" "")
  else if startsWithStr "```" content then
    pyStrip (replaceStr content "```" "")
  else content

/-- `get_agent_response` (llm_service.py lines 9-80), with the model call
and `json.loads` abstracted as described above. -/
def get_agent_response (parseJson : String → Option Json) (modelResult : Except String String) :
    Json :=
  match modelResult with
  | Except.error e => mkMessage ("LLM Error: " ++ e)
  | Except.ok raw =>
    let content := cleanContent raw
    match parseJson content with
    | some j => j
    | none => mkMessage ("Error parsing model response. Raw: " ++ content)

/-! ## Concrete environments used in witnesses and counterexamples -/

/-- An environment where snort is installed, every path exists, and every
subprocess call completes silently with exit code 0. -/
def envAllOk : Env :=
  { snortInstalled := true, pathExists := fun _ => true,
    run := fun _ => ProcOutcome.ok { stdout := "", stderr := "", returncode := 0 } }

/-- An environment where every subprocess call times out. -/
def envTimeout : Env :=
  { snortInstalled := true, pathExists := fun _ => true,
    run := fun _ => ProcOutcome.timeout "timed out" }

/-- A `json.loads` oracle for inputs that are not valid JSON. -/
def failingJsonParse : String → Option Json := fun _ => none

/-- A `json.loads` oracle for a model answer that is a JSON array. -/
def arrayJsonParse : String → Option Json := fun _ => some (Json.arr [])

/-! ## Helper lemmas -/

theorem dropWhile_idem (p : Char → Bool) (l : List Char) :
    (l.dropWhile p).dropWhile p = l.dropWhile p := by
  induction l with
  | nil => rfl
  | cons x xs ih =>
    cases hp : p x with
    | true => simp [List.dropWhile_cons, hp, ih]
    | false => simp [List.dropWhile_cons, hp]

theorem length_dropWhile_le (p : Char → Bool) (l : List Char) :
    (l.dropWhile p).length ≤ l.length := by
  induction l with
  | nil => simp
  | cons x xs ih =>
    cases hp : p x with
    | true =>
      simp only [List.dropWhile_cons, hp, if_true]
      exact Nat.le_trans ih (Nat.le_succ _)
    | false => simp [List.dropWhile_cons, hp]

theorem dropWhile_fix_head (p : Char → Bool) (y : Char) (ys : List Char)
    (h : (y :: ys).dropWhile p = y :: ys) : p y = false := by
  cases hp : p y with
  | false => rfl
  | true =>
    exfalso
    rw [List.dropWhile_cons, if_pos hp] at h
    have hlen := congrArg List.length h
    have := length_dropWhile_le p ys
    simp at hlen
    omega

theorem stripRightL_decomp (a : List Char) :
    a = stripRightL a ++ (a.reverse.takeWhile isPySpace).reverse := by
  unfold stripRightL
  conv_lhs => rw [← List.reverse_reverse a,
    ← List.takeWhile_append_dropWhile isPySpace a.reverse]
  rw [List.reverse_append]

theorem stripLeftL_stripRightL (a : List Char) (h : stripLeftL a = a) :
    stripLeftL (stripRightL a) = stripRightL a := by
  cases hsr : stripRightL a with
  | nil => rfl
  | cons y ys =>
    have hdec := stripRightL_decomp a
    rw [hsr] at hdec
    have hy : isPySpace y = false := by
      rw [hdec] at h
      exact dropWhile_fix_head isPySpace y (ys ++ (List.takeWhile isPySpace a.reverse).reverse)
        (by simpa [stripLeftL, List.cons_append] using h)
    simp [stripLeftL, List.dropWhile_cons, hy]

theorem stripRightL_idem (a : List Char) : stripRightL (stripRightL a) = stripRightL a := by
  unfold stripRightL
  rw [List.reverse_reverse, dropWhile_idem]

theorem pyStripL_idem (l : List Char) : pyStripL (pyStripL l) = pyStripL l := by
  unfold pyStripL
  rw [stripLeftL_stripRightL (stripLeftL l) (dropWhile_idem _ _), stripRightL_idem]

theorem splitChar1_eq (c : Char) (l pre post : List Char)
    (h : splitChar1 c l = some (pre, post)) : l = pre ++ c :: post := by
  induction l generalizing pre post with
  | nil => simp [splitChar1] at h
  | cons x xs ih =>
    unfold splitChar1 at h
    cases hx : x == c with
    | true =>
      rw [hx] at h
      simp at h
      obtain ⟨hpre, hpost⟩ := h
      subst hpre; subst hpost
      have hxc : x = c := eq_of_beq hx
      simp [hxc]
    | false =>
      rw [hx] at h
      simp at h
      cases hs : splitChar1 c xs with
      | none => rw [hs] at h; simp at h
      | some pp =>
        obtain ⟨pre', post'⟩ := pp
        rw [hs] at h
        simp at h
        obtain ⟨hpre, hpost⟩ := h
        subst hpre; subst hpost
        simp [ih pre' post' hs]

theorem pySplitN_length (c : Char) (n : Nat) (l : List Char) :
    (pySplitN c n l).length ≤ n + 1 := by
  induction n generalizing l with
  | zero => simp [pySplitN]
  | succ n ih =>
    unfold pySplitN
    cases h : splitChar1 c l with
    | none => simp
    | some pp =>
      obtain ⟨pre, post⟩ := pp
      simpa using Nat.succ_le_succ (ih post)

theorem pySplitN_ne_nil (c : Char) (n : Nat) (l : List Char) : pySplitN c n l ≠ [] := by
  cases n with
  | zero => simp [pySplitN]
  | succ n =>
    unfold pySplitN
    cases h : splitChar1 c l with
    | none => simp
    | some pp => obtain ⟨pre, post⟩ := pp; simp

theorem pySplitN_join (c : Char) (n : Nat) (l : List Char) :
    joinChar c (pySplitN c n l) = l := by
  induction n generalizing l with
  | zero => rfl
  | succ n ih =>
    unfold pySplitN
    cases h : splitChar1 c l with
    | none => rfl
    | some pp =>
      obtain ⟨pre, post⟩ := pp
      have hl := splitChar1_eq c l pre post h
      show joinChar c (pre :: pySplitN c n post) = l
      cases hsp : pySplitN c n post with
      | nil => exact absurd hsp (pySplitN_ne_nil c n post)
      | cons a rest =>
        have hstep : joinChar c (pre :: a :: rest) = pre ++ c :: joinChar c (a :: rest) := rfl
        rw [hstep, ← hsp, ih, hl]

theorem toList_asString (l : List Char) : (List.asString l).toList = l := rfl

theorem parseCore_raw (rt : List Char) (r : RuleRecord)
    (h : parseCore rt = ParseResult.record r) : r.Raw = rt.asString := by
  simp only [parseCore] at h
  by_cases h1 : rt = []
  · rw [if_pos h1] at h; simp at h
  · rw [if_neg h1] at h
    by_cases h2 : isPrefixL ['#'] rt = true
    · rw [if_pos h2] at h; simp at h
    · rw [if_neg h2] at h
      by_cases h3 : (pySplitN ' ' 7 rt).length < 7
      · rw [if_pos h3] at h; simp at h
      · rw [if_neg h3] at h
        injection h with h
        subst h
        rfl

theorem parseCore_short (rt : List Char) (h7 : (pySplitN ' ' 7 rt).length < 7) :
    parseCore rt = ParseResult.none := by
  simp only [parseCore]
  by_cases h1 : rt = []
  · rw [if_pos h1]
  · rw [if_neg h1]
    by_cases h2 : isPrefixL ['#'] rt = true
    · rw [if_pos h2]
    · rw [if_neg h2, if_pos h7]

theorem mem_addOption (acc : List (String × String)) (op : List Char) (q : String × String)
    (hq : q ∈ addOption acc op) : q ∈ acc ∨ '"' ∉ q.2.toList := by
  unfold addOption at hq
  by_cases hc : containsCharL ':' op = true
  · rw [if_pos hc] at hq
    unfold dictSet at hq
    rcases List.mem_append.mp hq with h | h
    · exact Or.inl (List.mem_filter.mp h).1
    · right
      rw [List.mem_singleton.mp h]
      show '"' ∉ ((pyStripL ((op.dropWhile (fun c => c != ':')).drop 1)).filter
        (fun c => c != '"')).asString.toList
      rw [toList_asString]
      intro hmem
      have h2 := (List.mem_filter.mp hmem).2
      simp at h2
  · rw [if_neg hc] at hq
    exact Or.inl hq

theorem foldl_no_quote (ops : List (List Char)) (acc : List (String × String))
    (hacc : ∀ q ∈ acc, '"' ∉ q.2.toList) :
    ∀ q ∈ ops.foldl addOption acc, '"' ∉ q.2.toList := by
  induction ops generalizing acc with
  | nil => simpa using hacc
  | cons op ops ih =>
    intro q hq
    rw [List.foldl_cons] at hq
    refine ih (addOption acc op) ?_ q hq
    intro q' hq'
    rcases mem_addOption acc op q' hq' with h | h
    · exact hacc q' h
    · exact h

theorem parseOptions_no_quote (ostr : List Char) (q : String × String)
    (hq : q ∈ parseOptions ostr) : '"' ∉ q.2.toList := by
  unfold parseOptions at hq
  by_cases hc : (containsCharL '(' ostr && containsCharL ')' ostr) = true
  · rw [if_pos hc] at hq
    exact foldl_no_quote _ _ (by simp) q hq
  · rw [if_neg hc] at hq
    simp at hq

/-! ## Claims about the rule mini-parser -/

/-- C5: `parse_snort_rule` applied to
`alert tcp any any -> any any (msg:"Test"; sid:1000001;)` yields a record
with Action "alert", Proto "tcp", Src "any:any", Dir "->", Dst "any:any",
Msg "Test" and SID "1000001". -/
theorem C5_example_parse :
    parse_snort_rule "alert tcp any any -> any any (msg:\"Test\"; sid:1000001;)" =
      ParseResult.record
        { Action := "alert", Proto := "tcp", Src := "any:any", Dir := "->", Dst := "any:any"
          Msg := "Test", SID := "1000001"
          Raw := "alert tcp any any -> any any (msg:\"Test\"; sid:1000001;)" } := by
  decide

/-- C6: `parse_snort_rule` yields `None` for every blank line (a line whose
stripped text is empty), every line whose first non-whitespace character is
`#`, and every line whose space-split field list has fewer than 7 entries;
in particular on `""`, `"# comment"` and `"   "`. -/
theorem C6_skip_lines :
    (∀ s : String, pyStrip s = "" → parse_snort_rule s = ParseResult.none) ∧
    (∀ s : String, (pyStrip s).toList.head? = some '#' →
        parse_snort_rule s = ParseResult.none) ∧
    (∀ s : String, (pySplitN ' ' 7 (pyStrip s).toList).length < 7 →
        parse_snort_rule s = ParseResult.none) ∧
    parse_snort_rule "" = ParseResult.none ∧
    parse_snort_rule "# comment" = ParseResult.none ∧
    parse_snort_rule "   " = ParseResult.none := by
  refine ⟨?_, ?_, ?_, by decide, by decide, by decide⟩
  · intro s h
    have hl : pyStripL s.toList = [] := congrArg String.toList h
    unfold parse_snort_rule
    simp only [parseCore]
    rw [if_pos hl]
  · intro s h
    have hx : (pyStripL s.toList).head? = some '#' := h
    unfold parse_snort_rule
    simp only [parseCore]
    cases hl : pyStripL s.toList with
    | nil => rw [if_pos rfl]
    | cons y ys =>
      rw [hl] at hx
      simp at hx
      subst hx
      rw [if_neg (by simp), if_pos (by simp [isPrefixL])]
  · intro s h
    exact parseCore_short (pyStripL s.toList) h

/-- C7: `parse_snort_rule` is idempotent on well-formed input: if a line
parses to a full record, reparsing that record's `Raw` field yields the
identical record.  This holds because `Raw` is the stripped line and
stripping is idempotent, after which the two parses run on equal input. -/
theorem C7_idempotent (s : String) (r : RuleRecord)
    (h : parse_snort_rule s = ParseResult.record r) :
    parse_snort_rule r.Raw = ParseResult.record r := by
  have hraw : r.Raw = (pyStripL s.toList).asString := parseCore_raw _ _ h
  unfold parse_snort_rule at h ⊢
  rw [hraw]
  have hconv : ((pyStripL s.toList).asString).toList = pyStripL s.toList := rfl
  rw [hconv, pyStripL_idem]
  exact h

/-- C7 witness: a concrete well-formed line with surrounding whitespace; its
record's `Raw` field is the stripped text and reparses to the same record. -/
theorem C7_witness :
    parse_snort_rule "  alert tcp any any -> any any (msg:\"Test\"; sid:1;)  " =
      ParseResult.record
        { Action := "alert", Proto := "tcp", Src := "any:any", Dir := "->", Dst := "any:any"
          Msg := "Test", SID := "1"
          Raw := "alert tcp any any -> any any (msg:\"Test\"; sid:1;)" } ∧
    parse_snort_rule
        (RuleRecord.Raw
          { Action := "alert", Proto := "tcp", Src := "any:any", Dir := "->", Dst := "any:any"
            Msg := "Test", SID := "1"
            Raw := "alert tcp any any -> any any (msg:\"Test\"; sid:1;)" }) =
      ParseResult.record
        { Action := "alert", Proto := "tcp", Src := "any:any", Dir := "->", Dst := "any:any"
          Msg := "Test", SID := "1"
          Raw := "alert tcp any any -> any any (msg:\"Test\"; sid:1;)" } :=
  ⟨by decide, C7_idempotent "  alert tcp any any -> any any (msg:\"Test\"; sid:1;)  " _ (by decide)⟩

/-- C8 counterexample: fields separated by a tab are NOT recognized the same
as fields separated by single spaces — the split is on the literal space
character only, so the tab-separated variant of a rule parses to a different
record than the space-separated one. -/
theorem C8_counterexample :
    parse_snort_rule "alert\ttcp any any -> any any x" ≠
      parse_snort_rule "alert tcp any any -> any any x" := by
  decide

/-- C8 (amended): a rule line is split on single space characters with at
most 7 splits, hence into at most 8 fields with the trailing blob unsplit
(joining the fields back with single spaces restores the line); runs of
spaces yield empty fields and tabs do not delimit fields, so whitespace
other than single spaces is NOT recognized the same way — a tab-separated
rule keeps the tab inside one field. -/
theorem C8_split_amended :
    (∀ l : List Char, (pySplitN ' ' 7 l).length ≤ 8) ∧
    (∀ l : List Char, joinChar ' ' (pySplitN ' ' 7 l) = l) ∧
    parse_snort_rule "alert\ttcp any any -> any any x" =
      ParseResult.record
        { Action := "alert\ttcp", Proto := "any", Src := "any:->", Dir := "any", Dst := "any:x"
          Msg := "N/A", SID := "N/A", Raw := "alert\ttcp any any -> any any x" } ∧
    parse_snort_rule "alert  tcp any any -> any any x" =
      ParseResult.record
        { Action := "alert", Proto := "", Src := "tcp:any", Dir := "any", Dst := "->:any"
          Msg := "N/A", SID := "N/A", Raw := "alert  tcp any any -> any any x" } :=
  ⟨fun l => pySplitN_length ' ' 7 l, fun l => pySplitN_join ' ' 7 l, by decide, by decide⟩

/-- C9 counterexample: quote characters interior to an option value are NOT
preserved — `replace` deletes every double quote, so `msg:"a"b"` yields
`ab`, not `a"b`. -/
theorem C9_counterexample :
    parse_snort_rule "alert tcp any any -> any any (msg:\"a\"b\";)" =
      ParseResult.record
        { Action := "alert", Proto := "tcp", Src := "any:any", Dir := "->", Dst := "any:any"
          Msg := "ab", SID := "N/A", Raw := "alert tcp any any -> any any (msg:\"a\"b\";)" } ∧
    ("ab" : String) ≠ "a\"b" :=
  ⟨by decide, by decide⟩

/-- C9 (amended): the parenthesized options segment is split on `;` into
key:value pairs (first colon wins), options lacking a colon are ignored,
values are stripped of whitespace and then ALL double-quote characters are
deleted from them (interior ones included), and `Msg`/`SID` take the values
of keys `msg`/`sid` with default `N/A`: no value stored by `parseOptions`
ever contains a double quote, and a concrete rule shows first-colon
splitting, colon-less options being ignored, and whitespace trimming. -/
theorem C9_options_amended :
    (∀ ostr q, q ∈ parseOptions ostr → '"' ∉ q.2.toList) ∧
    parse_snort_rule "alert tcp any any -> any any (msg:a:b; nocolon; sid: 9 ;)" =
      ParseResult.record
        { Action := "alert", Proto := "tcp", Src := "any:any", Dir := "->", Dst := "any:any"
          Msg := "a:b", SID := "9"
          Raw := "alert tcp any any -> any any (msg:a:b; nocolon; sid: 9 ;)" } :=
  ⟨fun ostr q h => parseOptions_no_quote ostr q h, by decide⟩

/-- C9 witness: a concrete option blob whose stored value is quote-free. -/
theorem C9_witness :
    ("msg", "hi") ∈ parseOptions "(msg:\"hi\";)".toList ∧
    '"' ∉ (("msg", "hi") : String × String).2.toList :=
  ⟨by decide, C9_options_amended.1 "(msg:\"hi\";)".toList ("msg", "hi") (by decide)⟩

/-- C10: on every input string `parse_snort_rule` returns either `None` or a
complete record (all eight fields present by construction of `RuleRecord`);
the degenerate `failed` branch — Python's `except` returning
`Parsing failed` — is unreachable, because every string primitive used
after the field-count check is total. -/
theorem C10_no_degenerate (s : String) :
    parse_snort_rule s = ParseResult.none ∨
      ∃ r : RuleRecord, parse_snort_rule s = ParseResult.record r := by
  unfold parse_snort_rule
  simp only [parseCore]
  by_cases h1 : pyStripL s.toList = []
  · rw [if_pos h1]; exact Or.inl rfl
  · rw [if_neg h1]
    by_cases h2 : isPrefixL ['#'] (pyStripL s.toList) = true
    · rw [if_pos h2]; exact Or.inl rfl
    · rw [if_neg h2]
      by_cases h3 : (pySplitN ' ' 7 (pyStripL s.toList)).length < 7
      · rw [if_pos h3]; exact Or.inl rfl
      · rw [if_neg h3]; exact Or.inr ⟨_, rfl⟩

/-- C6 witness: a whitespace-only line strips to the empty string and is
skipped. -/
theorem C6_witness :
    pyStrip "\t \t" = "" ∧ parse_snort_rule "\t \t" = ParseResult.none :=
  ⟨by decide, C6_skip_lines.1 "\t \t" (by decide)⟩

/-! ## Call-trace lemmas for the executor tools -/

theorem get_snort_version_calls (env : Env) (c : Call)
    (hc : c ∈ (get_snort_version env).2) : c = versionCall := by
  unfold get_snort_version at hc
  cases hi : env.snortInstalled with
  | false => rw [hi] at hc; simp at hc
  | true =>
    rw [hi] at hc
    simp only [Bool.not_true] at hc
    rw [if_neg (by simp)] at hc
    cases hr : env.run versionCall with
    | ok res => rw [hr] at hc; simpa using hc
    | timeout m => rw [hr] at hc; simpa using hc
    | exc m => rw [hr] at hc; simpa using hc

theorem verify_config_calls (env : Env) (p : String) (c : Call)
    (hc : c ∈ (verify_config env p).2) : c = verifyCall p := by
  unfold verify_config at hc
  cases hi : env.snortInstalled with
  | false => rw [hi] at hc; simp at hc
  | true =>
    rw [hi] at hc
    simp only [Bool.not_true] at hc
    rw [if_neg (by simp)] at hc
    cases hr : env.run (verifyCall p) with
    | ok res => rw [hr] at hc; simpa using hc
    | timeout m => rw [hr] at hc; simpa using hc
    | exc m => rw [hr] at hc; simpa using hc

theorem run_sniffer_calls (env : Env) (iface : String) (n : Int) (c : Call)
    (hc : c ∈ (run_sniffer env iface n).2) : c = sniffCall iface (min n 50) := by
  unfold run_sniffer at hc
  cases hi : env.snortInstalled with
  | false => rw [hi] at hc; simp at hc
  | true =>
    rw [hi] at hc
    simp only [Bool.not_true] at hc
    rw [if_neg (by simp)] at hc
    cases hr : env.run (sniffCall iface (min n 50)) with
    | ok res => rw [hr] at hc; simpa using hc
    | timeout m => rw [hr] at hc; simpa using hc
    | exc m => rw [hr] at hc; simpa using hc

theorem read_snort_logs_calls (env : Env) (lt : String) (n : Int) (c : Call)
    (hc : c ∈ (read_snort_logs env lt n).2) :
    ∃ fname, logFileFor lt = some fname ∧
      c = tailCall (min (max 1 n) 100) ("/var/log/snort/" ++ fname) := by
  unfold read_snort_logs at hc
  cases hlf : logFileFor lt with
  | none => rw [hlf] at hc; simp at hc
  | some fname =>
    rw [hlf] at hc
    refine ⟨fname, rfl, ?_⟩
    by_cases hp : env.pathExists ("/var/log/snort/" ++ fname) = true
    · cases hr : env.run (tailCall (min (max 1 n) 100) ("/var/log/snort/" ++ fname)) with
      | ok res =>
        by_cases hrc : (res.returncode != 0) = true
        · simp [hp, hr, hrc] at hc; exact hc
        · by_cases ho : pyStrip res.stdout = ""
          · simp [hp, hr, hrc, ho] at hc; exact hc
          · simp [hp, hr, hrc, ho] at hc; exact hc
      | timeout m => simp [hp, hr] at hc; exact hc
      | exc m => simp [hp, hr] at hc; exact hc
    · have hp' : env.pathExists ("/var/log/snort/" ++ fname) = false := by
        cases h : env.pathExists ("/var/log/snort/" ++ fname)
        · rfl
        · exact absurd h hp
      simp [hp'] at hc

theorem add_snort_rule_calls (env : Env) (rule : String) (c : Call)
    (hc : c ∈ (add_snort_rule env rule).2) :
    c = teeCall rule ∨ c = verifyCall "/etc/snort/snort.conf" := by
  unfold add_snort_rule at hc
  by_cases hv : validRuleStart (pyStrip rule) = true
  · cases hr : env.run (teeCall rule) with
    | ok res =>
      by_cases hrc : (res.returncode != 0) = true
      · simp [hv, hr, hrc] at hc
        exact Or.inl hc
      · simp [hv, hr, hrc] at hc
        rcases hc with h | h
        · exact Or.inl h
        · exact Or.inr (verify_config_calls env _ c h)
    | timeout m => simp [hv, hr] at hc; exact Or.inl hc
    | exc m => simp [hv, hr] at hc; exact Or.inl hc
  · have hv' : validRuleStart (pyStrip rule) = false := by
      cases h : validRuleStart (pyStrip rule)
      · rfl
      · exact absurd h hv
    simp [hv'] at hc

theorem run_sniffer_timeout_result (env : Env) (iface : String) (n : Int) (m : String)
    (hi : env.snortInstalled = true)
    (hr : env.run (sniffCall iface (min n 50)) = ProcOutcome.timeout m) :
    (run_sniffer env iface n).1 = "Error: Sniffer timed out." := by
  unfold run_sniffer
  simp [hi, hr]

/-! ## Claims about the executor tools -/

/-- C1 counterexample: the packet count is NOT clamped into `[1, 50]` — the
code only applies `min(packet_count, 50)`, so a request for 0 packets
invokes capture with count 0, which is below the claimed lower bound 1. -/
theorem C1_counterexample :
    (run_sniffer envAllOk "eth0" 0).2 = [sniffCall "eth0" 0] ∧
    (sniffCall "eth0" 0).argv = ["sudo", "snort", "-i", "eth0", "-v", "-n", "0"] ∧
    ¬ (1 ≤ (0 : Int)) :=
  ⟨by decide, by decide, by decide⟩

/-- C1 (amended): every capture invocation uses count `min(packet_count, 50)`
— clamped to at most 50 but with no lower bound — and every log-read
invocation uses a line count clamped into `[1, 100]`; in particular
`packet_count = 1000` captures with count 50 and `lines = 500` tails with
100. -/
theorem C1_clamping :
    (∀ env iface n c, c ∈ (run_sniffer env iface n).2 →
        c = sniffCall iface (min n 50) ∧ min n 50 ≤ 50) ∧
    (∀ env lt n c, c ∈ (read_snort_logs env lt n).2 →
        (∃ fname, c = tailCall (min (max 1 n) 100) ("/var/log/snort/" ++ fname)) ∧
        1 ≤ min (max 1 n) 100 ∧ min (max 1 n) 100 ≤ 100) := by
  constructor
  · intro env iface n c hc
    exact ⟨run_sniffer_calls env iface n c hc, min_le_right _ _⟩
  · intro env lt n c hc
    obtain ⟨fname, _, hcall⟩ := read_snort_logs_calls env lt n c hc
    exact ⟨⟨fname, hcall⟩, le_min (le_max_left _ _) (by norm_num), min_le_right _ _⟩

/-- C1 witness: `packet_count = 1000` invokes capture with count 50, and
`lines = 500` invokes tail with 100. -/
theorem C1_witness :
    sniffCall "eth0" 50 ∈ (run_sniffer envAllOk "eth0" 1000).2 ∧
    (sniffCall "eth0" 50 = sniffCall "eth0" (min 1000 50) ∧ min (1000 : Int) 50 ≤ 50) ∧
    tailCall 100 "/var/log/snort/snort.alert.fast" ∈
      (read_snort_logs envAllOk "alert.fast" 500).2 ∧
    ((∃ fname, tailCall 100 "/var/log/snort/snort.alert.fast" =
        tailCall (min (max 1 500) 100) ("/var/log/snort/" ++ fname)) ∧
      1 ≤ min (max 1 (500 : Int)) 100 ∧ min (max 1 (500 : Int)) 100 ≤ 100) :=
  ⟨by decide, C1_clamping.1 envAllOk "eth0" 1000 (sniffCall "eth0" 50) (by decide),
   by decide, C1_clamping.2 envAllOk "alert.fast" 500
     (tailCall 100 "/var/log/snort/snort.alert.fast") (by decide)⟩

/-- C2 counterexample: the version query (`get_snort_version`) passes NO
timeout to `subprocess.run`, so not every external invocation runs under a
5-15 second timeout. -/
theorem C2_counterexample :
    (get_snort_version envAllOk).2 = [versionCall] ∧
    versionCall.timeout = Option.none :=
  ⟨rfl, rfl⟩

/-- C2 (amended): every external invocation EXCEPT the version query runs
under a bounded timeout in `[5, 15]` seconds — 10 s for config verification,
15 s for packet capture, 5 s for log reads, 5 s (append) or 10 s (chained
verification) for rule insertion — while `get_snort_version` passes no
timeout at all; a timed-out packet capture returns the timeout-specific
text "Error: Sniffer timed out." instead of raising. -/
theorem C2_timeouts :
    (∀ env p c, c ∈ (verify_config env p).2 → c.timeout = some 10) ∧
    (∀ env iface n c, c ∈ (run_sniffer env iface n).2 → c.timeout = some 15) ∧
    (∀ env lt n c, c ∈ (read_snort_logs env lt n).2 → c.timeout = some 5) ∧
    (∀ env rule c, c ∈ (add_snort_rule env rule).2 →
        c.timeout = some 5 ∨ c.timeout = some 10) ∧
    (∀ env c, c ∈ (get_snort_version env).2 → c.timeout = Option.none) ∧
    (∀ env iface n m, env.snortInstalled = true →
        env.run (sniffCall iface (min n 50)) = ProcOutcome.timeout m →
        (run_sniffer env iface n).1 = "Error: Sniffer timed out.") := by
  refine ⟨?_, ?_, ?_, ?_, ?_, ?_⟩
  · intro env p c hc
    rw [verify_config_calls env p c hc]; rfl
  · intro env iface n c hc
    rw [run_sniffer_calls env iface n c hc]; rfl
  · intro env lt n c hc
    obtain ⟨fname, _, hcall⟩ := read_snort_logs_calls env lt n c hc
    rw [hcall]; rfl
  · intro env rule c hc
    rcases add_snort_rule_calls env rule c hc with h | h
    · exact Or.inl (by rw [h]; rfl)
    · exact Or.inr (by rw [h]; rfl)
  · intro env c hc
    rw [get_snort_version_calls env c hc]; rfl
  · intro env iface n m hi hr
    exact run_sniffer_timeout_result env iface n m hi hr

/-- C2 witness: the config-verification call carries a 10-second timeout,
and a timed-out sniffer run yields the timeout-specific message. -/
theorem C2_witness :
    verifyCall "/etc/snort/snort.conf" ∈ (verify_config envAllOk "/etc/snort/snort.conf").2 ∧
    (verifyCall "/etc/snort/snort.conf").timeout = some 10 ∧
    (run_sniffer envTimeout "eth0" 10).1 = "Error: Sniffer timed out." :=
  ⟨by decide,
   C2_timeouts.1 envAllOk "/etc/snort/snort.conf" (verifyCall "/etc/snort/snort.conf") (by decide),
   C2_timeouts.2.2.2.2.2 envTimeout "eth0" 10 "timed out" rfl rfl⟩

/-- C4: a rule whose stripped text does not begin with one of the eight
action keywords is rejected with an error and no external process is
invoked; an accepted rule is first appended via `sudo tee -a` (the trace
always begins with the append call), and when the append succeeds with exit
code 0 the configuration verification is re-run and the combined result
reports success exactly when the verification output mentions "VALID". -/
theorem C4_add_rule :
    (∀ env rule, validRuleStart (pyStrip rule) = false →
        add_snort_rule env rule =
          ("Error: Rule must start with a valid Snort action (alert, log, etc.)", [])) ∧
    (∀ env rule, validRuleStart (pyStrip rule) = true →
        (add_snort_rule env rule).2.head? = some (teeCall rule)) ∧
    (∀ env rule res, validRuleStart (pyStrip rule) = true →
        env.run (teeCall rule) = ProcOutcome.ok res → res.returncode = 0 →
        add_snort_rule env rule =
          ((if containsSub (verify_config env "/etc/snort/snort.conf").1 "VALID" = true then
              "✅ Rule added and verified successfully:\n" ++ rule
            else
              "⚠️ Rule added but Snort configuration is now INVALID:\n" ++
                (verify_config env "/etc/snort/snort.conf").1 ++
                "\n\nPlease check and fix the rule manually."),
           teeCall rule :: (verify_config env "/etc/snort/snort.conf").2)) := by
  refine ⟨?_, ?_, ?_⟩
  · intro env rule hv
    unfold add_snort_rule
    simp [hv]
  · intro env rule hv
    unfold add_snort_rule
    cases hr : env.run (teeCall rule) with
    | ok res =>
      by_cases hrc : (res.returncode != 0) = true
      · simp [hv, hr, hrc]
      · simp [hv, hr, hrc]
    | timeout m => simp [hv, hr]
    | exc m => simp [hv, hr]
  · intro env rule res hv hr hrc
    have hrc' : (res.returncode != 0) = false := by simp [hrc]
    unfold add_snort_rule
    simp [hv, hr, hrc']

/-- C4 witness: `"hello"` is rejected without any subprocess call, and an
accepted rule is appended and then verified, reporting the combined
outcome. -/
theorem C4_witness :
    add_snort_rule envAllOk "hello" =
      ("Error: Rule must start with a valid Snort action (alert, log, etc.)", []) ∧
    add_snort_rule envAllOk "alert icmp any any -> any any (sid:1;)" =
      ((if containsSub (verify_config envAllOk "/etc/snort/snort.conf").1 "VALID" = true then
          "✅ Rule added and verified successfully:\n" ++ "alert icmp any any -> any any (sid:1;)"
        else
          "⚠️ Rule added but Snort configuration is now INVALID:\n" ++
            (verify_config envAllOk "/etc/snort/snort.conf").1 ++
            "\n\nPlease check and fix the rule manually."),
       teeCall "alert icmp any any -> any any (sid:1;)" ::
         (verify_config envAllOk "/etc/snort/snort.conf").2) :=
  ⟨C4_add_rule.1 envAllOk "hello" (by decide),
   C4_add_rule.2.2 envAllOk "alert icmp any any -> any any (sid:1;)"
     { stdout := "", stderr := "", returncode := 0 } (by decide) rfl rfl⟩

/-! ## Claims about the decision engine -/

/-- C3 counterexample: the parse-failure message is
`Error parsing model response. Raw: <text>` (capital E, period, `Raw:`),
which does not start with the claimed lowercase `error parsing model
response`; moreover, when the model returns JSON that parses but is not a
tagged decision object (here an array), `get_agent_response` returns that
value as-is, so the result is not always an Answer/Invoke-tagged decision. -/
theorem C3_counterexample :
    get_agent_response failingJsonParse (Except.ok "not json") =
      mkMessage "Error parsing model response. Raw: not json" ∧
    startsWithStr "error parsing model response"
      "Error parsing model response. Raw: not json" = false ∧
    get_agent_response arrayJsonParse (Except.ok "[]") = Json.arr [] :=
  ⟨rfl, by decide, rfl⟩

/-- C3 (amended): `get_agent_response` always terminates in a value and
never propagates a fault: a raised model-transport error with message `e`
yields the message-tagged decision `LLM Error: <e>`; model output whose
cleaned text fails JSON parsing yields the message-tagged decision
`Error parsing model response. Raw: <cleaned text>`; and model output that
parses as JSON is returned unchanged (so it is a tagged decision only when
the model emitted one). -/
theorem C3_decision_amended :
    (∀ (parseJson : String → Option Json) (e : String),
        get_agent_response parseJson (Except.error e) = mkMessage ("LLM Error: " ++ e)) ∧
    (∀ (parseJson : String → Option Json) (raw : String),
        parseJson (cleanContent raw) = Option.none →
        get_agent_response parseJson (Except.ok raw) =
          mkMessage ("Error parsing model response. Raw: " ++ cleanContent raw)) ∧
    (∀ (parseJson : String → Option Json) (raw : String) (j : Json),
        parseJson (cleanContent raw) = some j →
        get_agent_response parseJson (Except.ok raw) = j) := by
  refine ⟨fun _ _ => rfl, ?_, ?_⟩
  · intro p raw h
    simp [get_agent_response, h]
  · intro p raw j h
    simp [get_agent_response, h]

/-- C3 witness: a concrete unparseable model output degrades to the tagged
error message (with the code-fence cleanup leaving the text unchanged). -/
theorem C3_witness :
    get_agent_response failingJsonParse (Except.ok "x") =
      mkMessage "Error parsing model response. Raw: x" :=
  C3_decision_amended.2.1 failingJsonParse "x" rfl
